import Mathlib

/-!
Verification of the aionatgrid client library.

This file gives a shallow embedding, in Lean, of the authentication and
request-execution logic of the aionatgrid repository
(src/aionatgrid/client.py, config.py, auth.py, oidchelper.py,
exceptions.py), and proves properties of that embedding.

Modelling conventions:
  * Python floats are modelled as rationals.
  * Python strings are Lean strings; Python truthiness of a `str | None`
    value is `pyTruthyS` below, of a numeric optional value `pyTruthyQ`.
  * The aiohttp transport is modelled by oracles: each network interaction
    is a parameter giving the observed response (status, body, final URL).
  * Exceptions are modelled with `Except`; the exception classes of
    exceptions.py are the constructors of `PyErr` and `ClientError`.
-/

namespace Aionatgrid

/-- Python truthiness of an optional string (`None` and `""` are falsy). -/
def pyTruthyS : Option String → Bool
  | some s => s ≠ ""
  | none => false

/-- Python truthiness of an optional number (`None` and `0` are falsy). -/
def pyTruthyQ : Option ℚ → Bool
  | some q => q ≠ 0
  | none => false

/-- Retry configuration, from config.py `RetryConfig` (floats as `ℚ`). -/
structure RetryConfig where
  max_attempts : Nat
  initial_delay : ℚ
  max_delay : ℚ
  exponential_base : ℚ
  retry_on_status : List Nat
  retry_on_connection_errors : Bool
  retry_on_timeout : Bool
deriving DecidableEq

/-- The default `RetryConfig()` of config.py. -/
def defaultRetryConfig : RetryConfig :=
  ⟨3, 1, 10, 2, [408, 429, 500, 502, 503, 504], true, true⟩

/-- client.py `NationalGridClient._calculate_retry_delay`.  `r` is the draw
of `random.random()` (uniform on [0,1)); `0.25` is written `1/4`. -/
def calculate_retry_delay (rc : RetryConfig) (attempt : Nat) (r : ℚ) : ℚ :=
  let delay := rc.initial_delay * rc.exponential_base ^ attempt
  let delay2 := min delay rc.max_delay
  let jitter := delay2 * (1/4) * (2 * r - 1)
  max 0 (delay2 + jitter)

/-- C7: for every zero-indexed attempt `a` and jitter draw `U = 2r - 1` in
[-1, 1], the computed delay equals `max 0 (d * (1 + U/4))` where
`d = min (initial_delay * base ^ a) max_delay`; under nonnegative
configuration values the delay lies in `[3/4 * d, 5/4 * d]`, is never
negative, and never exceeds `5/4 * max_delay`. -/
theorem c7_backoff_delay_formula (rc : RetryConfig) (attempt : Nat) (r : ℚ) :
    calculate_retry_delay rc attempt r =
      max 0 ((min (rc.initial_delay * rc.exponential_base ^ attempt) rc.max_delay)
        * (1 + (2 * r - 1) / 4))
    ∧ 0 ≤ calculate_retry_delay rc attempt r
    ∧ (0 ≤ rc.initial_delay → 0 ≤ rc.exponential_base → 0 ≤ rc.max_delay →
       0 ≤ r → r ≤ 1 →
       3/4 * (min (rc.initial_delay * rc.exponential_base ^ attempt) rc.max_delay)
         ≤ calculate_retry_delay rc attempt r
       ∧ calculate_retry_delay rc attempt r
         ≤ 5/4 * (min (rc.initial_delay * rc.exponential_base ^ attempt) rc.max_delay)
       ∧ calculate_retry_delay rc attempt r ≤ 5/4 * rc.max_delay) := by
  set d := min (rc.initial_delay * rc.exponential_base ^ attempt) rc.max_delay with hd
  have hform : calculate_retry_delay rc attempt r = max 0 (d * (1 + (2 * r - 1) / 4)) := by
    show max 0 (d + d * (1/4) * (2 * r - 1)) = max 0 (d * (1 + (2 * r - 1) / 4))
    congr 1
    ring
  refine ⟨hform, ?_, ?_⟩
  · rw [hform]; exact le_max_left _ _
  · intro hinit hbase hmax hr0 hr1
    have hdnn : 0 ≤ d := by
      have h1 : 0 ≤ rc.initial_delay * rc.exponential_base ^ attempt := by positivity
      exact le_min h1 hmax
    have hu0 : (3 : ℚ)/4 ≤ 1 + (2 * r - 1) / 4 := by linarith
    have hu1 : 1 + (2 * r - 1) / 4 ≤ (5 : ℚ)/4 := by linarith
    have hprod0 : 0 ≤ d * (1 + (2 * r - 1) / 4) := by
      apply mul_nonneg hdnn; linarith
    have hmaxeq : max 0 (d * (1 + (2 * r - 1) / 4)) = d * (1 + (2 * r - 1) / 4) :=
      max_eq_right hprod0
    rw [hform, hmaxeq]
    refine ⟨?_, ?_, ?_⟩
    · calc 3/4 * d = d * (3/4) := by ring
        _ ≤ d * (1 + (2 * r - 1) / 4) := by
            exact mul_le_mul_of_nonneg_left hu0 hdnn
    · calc d * (1 + (2 * r - 1) / 4) ≤ d * (5/4) := mul_le_mul_of_nonneg_left hu1 hdnn
        _ = 5/4 * d := by ring
    · have hdm : d ≤ rc.max_delay := min_le_right _ _
      calc d * (1 + (2 * r - 1) / 4) ≤ d * (5/4) := mul_le_mul_of_nonneg_left hu1 hdnn
        _ ≤ rc.max_delay * (5/4) := by
            exact mul_le_mul_of_nonneg_right hdm (by norm_num)
        _ = 5/4 * rc.max_delay := by ring

/-- C7 witness: the theorem instantiated at the default configuration,
attempt 1 and draw `r = 1` (so `d = 2` and the delay is `5/2`). -/
theorem c7_backoff_delay_formula_witness :
    calculate_retry_delay defaultRetryConfig 1 1 = 5/2
    ∧ 3/4 * (2 : ℚ) ≤ calculate_retry_delay defaultRetryConfig 1 1
    ∧ calculate_retry_delay defaultRetryConfig 1 1 ≤ 5/4 * (10 : ℚ) := by
  have h := c7_backoff_delay_formula defaultRetryConfig 1 1
  have hb := h.2.2 (by norm_num [defaultRetryConfig]) (by norm_num [defaultRetryConfig])
    (by norm_num [defaultRetryConfig]) (by norm_num) (by norm_num)
  refine ⟨?_, ?_, ?_⟩
  · rw [h.1]; norm_num [defaultRetryConfig]
  · have := hb.1; norm_num [defaultRetryConfig] at this ⊢; linarith
  · have := hb.2.2; norm_num [defaultRetryConfig] at this ⊢; linarith

/-- Exceptions raised by the embedded code. `cannotConnect` is
exceptions.py `CannotConnectError`, `invalidAuth` is `InvalidAuthError`,
`jsonDecodeError` is the stdlib `json.JSONDecodeError`, and `typeError`
is the interpreter-level `TypeError` of a bad call. -/
inductive PyErr where
  | cannotConnect (msg : String)
  | invalidAuth (msg : String)
  | jsonDecodeError
  | typeError
deriving DecidableEq

/-- Minimal model of `aiohttp.ClientSession`: whether it is closed. -/
structure SessionModel where
  closed : Bool
deriving DecidableEq

/-- config.py `NationalGridConfig` (the fields the claims touch). -/
structure NationalGridConfigModel where
  endpoint : String
  rest_base_url : String
  username : Option String
  password : Option String
  subscription_key : String
  timeout : ℚ
  verify_ssl : Bool
  retry_config : RetryConfig
deriving DecidableEq

/-- The mutable per-client state set by `NationalGridClient.__init__`:
`_config`, `_session`, `_owns_session`, `_access_token`,
`_token_expires_at` (client.py lines 39-52). -/
structure ClientState where
  config : NationalGridConfigModel
  session : Option SessionModel
  ownsSession : Bool
  accessToken : Option String
  tokenExpiresAt : Option ℚ
deriving DecidableEq

/-- client.py `NationalGridClient.__init__`: `_owns_session = session is None`,
token cache starts empty. -/
def init_client (config : NationalGridConfigModel) (session : Option SessionModel) :
    ClientState :=
  ClientState.mk config session session.isNone none none

/-- client.py `NationalGridClient.close`: close the underlying session and
drop the reference only when it exists, is open, and the client owns it.
The returned `Bool` records whether the underlying session was closed. -/
def close_client (st : ClientState) : ClientState × Bool :=
  if (match st.session with | some s => !s.closed | none => false) && st.ownsSession then
    (ClientState.mk st.config none st.ownsSession st.accessToken st.tokenExpiresAt, true)
  else (st, false)

/-- client.py `NationalGridClient.__aexit__`: it only awaits `close()`. -/
def aexit_client (st : ClientState) : ClientState × Bool :=
  close_client st

/-- C10: `close()` (and `__aexit__`) closes the underlying session only when
the client owns it; for a caller-supplied session the state is returned
unchanged and nothing is closed; and `close()` never changes the token
cache, the expiry or the config. -/
theorem c10_close_only_owned_session (cfg : NationalGridConfigModel)
    (s : SessionModel) (st : ClientState) :
    aexit_client st = close_client st
    ∧ close_client (init_client cfg (some s)) = (init_client cfg (some s), false)
    ∧ ((close_client st).2 = true → st.ownsSession = true)
    ∧ (st.ownsSession = false → close_client st = (st, false))
    ∧ (close_client st).1.accessToken = st.accessToken
    ∧ (close_client st).1.tokenExpiresAt = st.tokenExpiresAt
    ∧ (close_client st).1.config = st.config
    ∧ (close_client st).1.ownsSession = st.ownsSession := by
  refine ⟨rfl, ?_, ?_, ?_, ?_, ?_, ?_, ?_⟩
  · simp [close_client, init_client]
  · intro h
    by_contra hn
    simp only [Bool.not_eq_true] at hn
    simp [close_client, hn] at h
  · intro h
    simp [close_client, h]
  all_goals
    unfold close_client
    split <;> rfl

/-- C10 witness: a client built around a caller-supplied open session is
untouched by `close()`, and its token cache and config survive. -/
theorem c10_close_only_owned_session_witness :
    close_client (init_client
        (NationalGridConfigModel.mk "e" "r" none none "k" 30 true defaultRetryConfig)
        (some (SessionModel.mk false)))
      = (init_client
        (NationalGridConfigModel.mk "e" "r" none none "k" 30 true defaultRetryConfig)
        (some (SessionModel.mk false)), false)
    ∧ (close_client (ClientState.mk
        (NationalGridConfigModel.mk "e" "r" none none "k" 30 true defaultRetryConfig)
        none false (some "tok") (some 99))).1.accessToken = some "tok" := by
  constructor
  · exact (c10_close_only_owned_session
      (NationalGridConfigModel.mk "e" "r" none none "k" 30 true defaultRetryConfig)
      (SessionModel.mk false)
      (init_client
        (NationalGridConfigModel.mk "e" "r" none none "k" 30 true defaultRetryConfig)
        (some (SessionModel.mk false)))).2.1
  · exact ((c10_close_only_owned_session
      (NationalGridConfigModel.mk "e" "r" none none "k" 30 true defaultRetryConfig)
      (SessionModel.mk false)
      (ClientState.mk
        (NationalGridConfigModel.mk "e" "r" none none "k" 30 true defaultRetryConfig)
        none false (some "tok") (some 99))).2.2.2.2.1).trans rfl

/-- Outcome of binding a Python call against a function signature. -/
inductive BindResult where
  | ok
  | unexpectedKeyword (kw : String)
  | multipleValues (kw : String)
  | tooManyPositional
  | missingArgument (p : String)
deriving DecidableEq

/-- CPython keyword binding for a function without `*args` defaults: each
keyword must name a parameter not already filled positionally; an unknown
keyword raises `TypeError` unless the signature has `**kwargs`. -/
def bind_keywords (params : List String) (hasVarKeyword : Bool) (nPos : Nat) :
    List String → BindResult
  | [] => .ok
  | k :: rest =>
    if (params.take nPos).contains k then .multipleValues k
    else if params.contains k || hasVarKeyword then bind_keywords params hasVarKeyword nPos rest
    else .unexpectedKeyword k

/-- CPython call binding for a function whose parameters all lack defaults
(`params` excludes a bound method's `self`): fill `nPos` positionally, bind
the keywords, then require every remaining parameter to be supplied. -/
def bind_python_call (params : List String) (hasVarKeyword : Bool) (nPos : Nat)
    (kwNames : List String) : BindResult :=
  if params.length < nPos then .tooManyPositional
  else match bind_keywords params hasVarKeyword nPos kwNames with
    | .ok =>
      match (params.drop nPos).find? (fun p => !kwNames.contains p) with
      | some p => .missingArgument p
      | none => .ok
    | r => r

/-- The parameters of auth.py `NationalGridAuth.async_login` after `self`
(lines 32-38): it has no `timeout` parameter and no `**kwargs`. -/
def async_login_params : List String :=
  ["session", "username", "password", "login_data"]

/-- The call client.py makes at `_get_access_token` (lines 431-437): four
positional arguments and the keyword argument `timeout`. -/
def client_async_login_call : BindResult :=
  bind_python_call async_login_params false 4 ["timeout"]

/-- The token cache of `NationalGridClient`: `_access_token` and
`_token_expires_at`. -/
structure TokenState where
  accessToken : Option String
  tokenExpiresAt : Option ℚ
deriving DecidableEq

/-- The state after a 401 clears the cache (client.py lines 201-204). -/
def clearedToken : TokenState := TokenState.mk none none

/-- client.py lines 415-418 / 426-428: the cached token is returned when
`_access_token` and `_token_expires_at` are truthy and the current time is
more than 300 seconds (`TOKEN_EXPIRY_BUFFER_SECONDS`) before the expiry. -/
def cached_token_fresh (st : TokenState) (now : ℚ) : Bool :=
  pyTruthyS st.accessToken && pyTruthyQ st.tokenExpiresAt
    && decide (now < st.tokenExpiresAt.getD 0 - 300)

/-- client.py `NationalGridClient._get_access_token`.  `loginOutcome` is
what `NationalGridAuth.async_login` would return, but the call is guarded
by `client_async_login_call`: the actual call at lines 431-437 passes
`timeout=` to a signature without it, which raises `TypeError` before the
login body runs. -/
def get_access_token (username password : Option String) (st : TokenState) (now : ℚ)
    (loginOutcome : Option String × Option ℚ) : Except PyErr (TokenState × Option String) :=
  if cached_token_fresh st now then .ok (st, st.accessToken)
  else if !(pyTruthyS username && pyTruthyS password) then .ok (st, none)
  else if cached_token_fresh st now then .ok (st, st.accessToken)
  else match client_async_login_call with
    | .ok =>
      let tok := loginOutcome.1
      let expiresIn := loginOutcome.2
      if pyTruthyS tok && pyTruthyQ expiresIn then
        let st' := TokenState.mk tok (some (now + expiresIn.getD 0))
        .ok (st', st'.accessToken)
      else .ok (clearedToken, none)
    | _ => .error .typeError

/-- C1: claimed: with username and password set and no fresh cached token,
`_get_access_token` runs `NationalGridAuth.async_login` and on success
caches the returned token.  In the code the call at client.py lines
431-437 passes `timeout=self._config.timeout`, but auth.py defines
`async_login(self, session, username, password, login_data)` with no
`timeout` parameter, so binding fails with `TypeError` before the login
runs: no token is ever acquired or cached on this path. -/
theorem c1_token_acquisition_raises_type_error (username password : Option String)
    (st : TokenState) (now : ℚ) (loginOutcome : Option String × Option ℚ)
    (hu : pyTruthyS username = true) (hp : pyTruthyS password = true)
    (hstale : cached_token_fresh st now = false) :
    client_async_login_call = .unexpectedKeyword "timeout"
    ∧ get_access_token username password st now loginOutcome = .error .typeError := by
  constructor
  · rfl
  · unfold get_access_token
    rw [hstale, hu, hp]
    simp [client_async_login_call, bind_python_call, bind_keywords, async_login_params]

/-- C1 witness: a concrete credentialed client with an empty token cache at
time 0: the token-acquisition step raises `TypeError`. -/
theorem c1_token_acquisition_raises_type_error_witness :
    client_async_login_call = .unexpectedKeyword "timeout"
    ∧ get_access_token (some "user@example.com") (some "hunter2")
        (TokenState.mk none none) 0 (some "tok", some 3600) = .error .typeError :=
  c1_token_acquisition_raises_type_error (some "user@example.com") (some "hunter2")
    (TokenState.mk none none) 0 (some "tok", some 3600) (by decide) (by decide) (by decide)

/-- Transport-level exceptions the loop can see (`aiohttp` classes and
`asyncio.TimeoutError`); `otherError` stands for any other exception. -/
inductive TransportError where
  | clientConnectionError
  | serverDisconnectedError
  | serverTimeoutError
  | asyncioTimeoutError
  | clientResponseError (status : Nat)
  | otherError
deriving DecidableEq

/-- The exception caught by the loop body: either a `GraphQLError` /
`RestAPIError` (`wrapped`, with `isRest` telling the two apart, the
`status` field and the `original_error` field), or a raw exception from
the transport that was not yet wrapped. -/
inductive ClientError where
  | wrapped (isRest : Bool) (status : Option Nat) (originalError : Option TransportError)
  | transport (t : TransportError)
deriving DecidableEq

/-- client.py `NationalGridClient._should_retry` (lines 97-145), translated
branch by branch: never past `max_attempts - 1`; unwrap `original_error`
from wrapped errors for the isinstance checks; retry on connection or
timeout errors when enabled; retry when a `ClientResponseError` status is
in `retry_on_status`, or is 401 on attempt 0; same checks on the `status`
field of wrapped errors (guarded by Python truthiness for the membership
check). -/
def should_retry (error : ClientError) (attempt : Nat) (rc : RetryConfig) : Bool :=
  if rc.max_attempts - 1 ≤ attempt then false
  else
    let checkError : Option TransportError :=
      match error with
      | .wrapped _ _ (some t) => some t
      | .wrapped _ _ none => none
      | .transport t => some t
    let isConn : Bool :=
      match checkError with
      | some .clientConnectionError => true
      | some .serverDisconnectedError => true
      | _ => false
    let isTimeout : Bool :=
      match checkError with
      | some .serverTimeoutError => true
      | some .asyncioTimeoutError => true
      | _ => false
    let respRetry : Bool :=
      match checkError with
      | some (.clientResponseError s) =>
        decide (s ∈ rc.retry_on_status) || (decide (s = 401) && decide (attempt = 0))
      | _ => false
    let customRetry : Bool :=
      match error with
      | .wrapped _ (some s) _ =>
        (decide (s ≠ 0) && decide (s ∈ rc.retry_on_status))
          || (decide (s = 401) && decide (attempt = 0))
      | _ => false
    (rc.retry_on_connection_errors && isConn) || (rc.retry_on_timeout && isTimeout)
      || respRetry || customRetry

/-- What the transport does on one attempt of the execute / request_rest
loop: a 2xx response with parseable body, `raise_for_status` raising a
`ClientResponseError` with the given status, or a raw transport error from
the request call itself. -/
inductive AttemptObs where
  | ok
  | httpStatus (s : Nat)
  | transport (t : TransportError)
deriving DecidableEq

/-- client.py lines 196-220 / 337-360: a non-2xx status first clears the
cached token when it is 401, then is wrapped into a `GraphQLError`
(resp. `RestAPIError`) whose `status` and `original_error` carry the
`ClientResponseError`. -/
def process_http_error (isRest : Bool) (s : Nat) (st : TokenState) :
    TokenState × ClientError :=
  (if s = 401 then clearedToken else st,
   .wrapped isRest (some s) (some (.clientResponseError s)))

/-- client.py lines 239-248 / 379-388: an error raised out of the loop is
wrapped into `GraphQLError` / `RestAPIError` unless it already is one. -/
def wrap_error (isRest : Bool) : ClientError → ClientError
  | .transport t => .wrapped isRest none (some t)
  | e => e

/-- Result of one execute / request_rest call: success at some attempt, an
error raised mid-loop, or `RetryExhaustedError` with its `attempts` and
`last_error` fields. -/
inductive ExecResult where
  | success (attempt : Nat) (st : TokenState)
  | raised (e : ClientError) (attempt : Nat) (st : TokenState)
  | exhausted (attempts : Nat) (lastError : Option ClientError) (st : TokenState)
deriving DecidableEq

/-- The `attempts` and `last_error` fields when the result is a
`RetryExhaustedError`. -/
def exhausted_with : ExecResult → Option (Nat × Option ClientError)
  | .exhausted n le _ => some (n, le)
  | _ => none

/-- The retry loop of client.py `execute` (lines 171-271) and
`request_rest` (lines 305-411), which differ only in the error class
(`isRest`).  `obs` is the transport oracle per attempt; `acquire` models
`_get_access_token` per attempt (its internals are `get_access_token`
above); `fuel` is the number of loop iterations left
(`max_attempts - attempt`).  Per attempt: acquire a token (an exception
there is a non-transport error caught by the same handler), issue the
call; on error decide retry via `should_retry`; a non-retryable error
before the last attempt is raised (wrapped); the last attempt breaks to
`RetryExhaustedError` carrying `max_attempts` and the last error. -/
def exec_loop (rc : RetryConfig) (isRest : Bool) (obs : Nat → AttemptObs)
    (acquire : Nat → TokenState → Except PyErr (TokenState × Option String)) :
    Nat → Nat → TokenState → Option ClientError → ExecResult
  | 0, _, st, lastError => .exhausted rc.max_attempts lastError st
  | fuel + 1, attempt, st, _ =>
    let step : TokenState × Option ClientError :=
      match acquire attempt st with
      | .error _ => (st, some (.transport .otherError))
      | .ok (st1, _) =>
        match obs attempt with
        | .ok => (st1, none)
        | .httpStatus s => let p := process_http_error isRest s st1; (p.1, some p.2)
        | .transport t => (st1, some (.transport t))
    match step with
    | (st', none) => .success attempt st'
    | (st', some e) =>
      let retry := should_retry e attempt rc
      let isLast := rc.max_attempts ≤ attempt + 1
      if !retry && !isLast then .raised (wrap_error isRest e) attempt st'
      else if isLast then .exhausted rc.max_attempts (some e) st'
      else exec_loop rc isRest obs acquire fuel (attempt + 1) st' (some e)

/-- One whole call: `for attempt in range(max_attempts)` starting with the
given token state and no last error. -/
def execute_request (rc : RetryConfig) (isRest : Bool) (obs : Nat → AttemptObs)
    (acquire : Nat → TokenState → Except PyErr (TokenState × Option String))
    (st : TokenState) : ExecResult :=
  exec_loop rc isRest obs acquire rc.max_attempts 0 st none

/-- The error `execute` / `request_rest` builds from a 401 response. -/
def err401 (isRest : Bool) : ClientError :=
  .wrapped isRest (some 401) (some (.clientResponseError 401))

/-- Helper: when 401 is not in `retry_on_status`, a wrapped 401 error is
retry-eligible exactly on attempt 0 with at least one attempt left. -/
theorem should_retry_401_iff (isRest : Bool) (a : Nat) (rc : RetryConfig)
    (h : 401 ∉ rc.retry_on_status) :
    should_retry (err401 isRest) a rc = true ↔ (a = 0 ∧ 1 < rc.max_attempts) := by
  unfold should_retry err401
  by_cases hle : rc.max_attempts - 1 ≤ a
  · simp only [if_pos hle]
    constructor
    · intro hfalse; cases hfalse
    · rintro ⟨ha, hm⟩
      omega
  · simp only [if_neg hle]
    simp [decide_eq_false h]
    omega

/-- Helper: two consecutive 401 responses end the call by attempt 1: with
`max_attempts = 2` retries are exhausted there, otherwise the second 401
is raised at once; either way the token cache ends cleared and no third
attempt happens. -/
theorem two_401s_terminal (isRest : Bool) (rc : RetryConfig)
    (obs : Nat → AttemptObs)
    (acquire : Nat → TokenState → Except PyErr (TokenState × Option String))
    (st : TokenState)
    (hros : 401 ∉ rc.retry_on_status) (h2 : 2 ≤ rc.max_attempts)
    (h0 : obs 0 = .httpStatus 401) (h1 : obs 1 = .httpStatus 401)
    (hacq : ∀ n s, ∃ p, acquire n s = .ok p) :
    execute_request rc isRest obs acquire st =
      if rc.max_attempts = 2
      then .exhausted 2 (some (err401 isRest)) clearedToken
      else .raised (err401 isRest) 1 clearedToken := by
  obtain ⟨k, hk⟩ : ∃ k, rc.max_attempts = k + 2 := ⟨rc.max_attempts - 2, by omega⟩
  have hr0 : should_retry (err401 isRest) 0 rc = true :=
    (should_retry_401_iff isRest 0 rc hros).mpr ⟨rfl, by omega⟩
  have hr1 : should_retry (err401 isRest) 1 rc = false := by
    have hne : ¬ should_retry (err401 isRest) 1 rc = true := by
      rw [should_retry_401_iff isRest 1 rc hros]
      omega
    exact Bool.not_eq_true _ |>.mp hne
  simp only [err401] at hr0 hr1
  obtain ⟨⟨st0, tok0⟩, hp0⟩ := hacq 0 st
  obtain ⟨⟨st1, tok1⟩, hp1⟩ := hacq 1 clearedToken
  have hnotLast0 : ¬ (rc.max_attempts ≤ 0 + 1) := by omega
  unfold execute_request
  rw [hk]
  show exec_loop rc isRest obs acquire (k + 1 + 1) 0 st none = _
  rw [exec_loop]
  simp only [hp0, h0, process_http_error, hr0, hnotLast0]
  norm_num
  rw [exec_loop]
  simp only [hp1, h1, process_http_error, hr1]
  rcases Nat.eq_zero_or_pos k with hk0 | hkpos
  · subst hk0
    have h2eq : rc.max_attempts = 2 := by omega
    simp [hr0, hr1, h2eq, err401, wrap_error]
  · have hgt : 2 < rc.max_attempts := by omega
    have hne2 : rc.max_attempts ≠ 2 := by omega
    simp [hr0, hr1, err401, wrap_error, hne2, Nat.not_le.mpr hgt]
    rw [if_neg (by omega : ¬ k = 0)]

/-- C3: a downstream 401 clears the cached token (token and expiry both set
to absent) before the error is classified; `_should_retry` makes a
wrapped 401 retry-eligible exactly on attempt 0 (when 401 is not in
`retry_on_status`); hence with 401 responses on attempts 0 and 1 the call
performs the one retry and the second consecutive 401 is terminal, for
both the GraphQL and the REST loop. -/
theorem c3_401_clears_token_single_retry (isRest : Bool) (rc : RetryConfig)
    (st : TokenState) (obs : Nat → AttemptObs)
    (acquire : Nat → TokenState → Except PyErr (TokenState × Option String))
    (hros : 401 ∉ rc.retry_on_status) :
    process_http_error isRest 401 st = (clearedToken, err401 isRest)
    ∧ (∀ a, should_retry (err401 isRest) a rc = true ↔ (a = 0 ∧ 1 < rc.max_attempts))
    ∧ (2 ≤ rc.max_attempts → obs 0 = .httpStatus 401 → obs 1 = .httpStatus 401 →
       (∀ n s, ∃ p, acquire n s = .ok p) →
       execute_request rc isRest obs acquire st =
         if rc.max_attempts = 2
         then .exhausted 2 (some (err401 isRest)) clearedToken
         else .raised (err401 isRest) 1 clearedToken) := by
  refine ⟨?_, ?_, ?_⟩
  · simp [process_http_error, err401]
  · intro a
    exact should_retry_401_iff isRest a rc hros
  · intro h2 h0 h1 hacq
    exact two_401s_terminal isRest rc obs acquire st hros h2 h0 h1 hacq

/-- C3 witness: the default configuration (three attempts, 401 not in the
retryable set), a server answering 401 on every attempt and a login oracle
in the style of the repository's own test fakes: the call clears the
token, retries once and raises the second 401. -/
theorem c3_401_clears_token_single_retry_witness :
    execute_request defaultRetryConfig false (fun _ => .httpStatus 401)
        (fun _ s => .ok (s, some "tok")) (TokenState.mk none none) =
      .raised (err401 false) 1 clearedToken
    ∧ should_retry (err401 false) 0 defaultRetryConfig = true
    ∧ should_retry (err401 false) 1 defaultRetryConfig = false := by
  have h := c3_401_clears_token_single_retry false defaultRetryConfig
    (TokenState.mk none none) (fun _ => .httpStatus 401)
    (fun _ s => .ok (s, some "tok")) (by decide)
  refine ⟨?_, ?_, ?_⟩
  · have h3 := h.2.2 (by decide) rfl rfl (fun n s => ⟨(s, some "tok"), rfl⟩)
    simpa using h3
  · exact (h.2.1 0).mpr ⟨rfl, by decide⟩
  · have := (h.2.1 1)
    simp at this
    simpa using this

/-- The error the loop records for a failing attempt: a non-2xx status is
wrapped with its `ClientResponseError`; a raw transport error is stored as
caught (client.py stores `last_error = e` before any wrapping). -/
def err_of_obs (isRest : Bool) : AttemptObs → ClientError
  | .ok => .transport .otherError
  | .httpStatus s => .wrapped isRest (some s) (some (.clientResponseError s))
  | .transport t => .transport t

/-- Helper: when every attempt fails and every non-final attempt is
retry-eligible, the loop runs all attempts and ends in
`RetryExhaustedError` carrying `max_attempts` and the final attempt's
error. -/
theorem exec_loop_exhausts (rc : RetryConfig) (isRest : Bool)
    (obs : Nat → AttemptObs)
    (acquire : Nat → TokenState → Except PyErr (TokenState × Option String))
    (hfail : ∀ a, a < rc.max_attempts → obs a ≠ .ok)
    (hretry : ∀ a, a + 1 < rc.max_attempts →
      should_retry (err_of_obs isRest (obs a)) a rc = true)
    (hacq : ∀ n s, ∃ p, acquire n s = .ok p) :
    ∀ fuel attempt st lastError, attempt + fuel = rc.max_attempts → 0 < fuel →
      exhausted_with (exec_loop rc isRest obs acquire fuel attempt st lastError)
        = some (rc.max_attempts,
                some (err_of_obs isRest (obs (rc.max_attempts - 1)))) := by
  intro fuel
  induction fuel with
  | zero =>
    intro attempt st lastError hsum hpos
    omega
  | succ f ih =>
    intro attempt st lastError hsum _
    obtain ⟨⟨st1, tok⟩, hp⟩ := hacq attempt st
    rw [exec_loop]
    cases hobs : obs attempt with
    | ok => exact absurd hobs (hfail attempt (by omega))
    | httpStatus s =>
      simp only [hp, hobs, process_http_error]
      rcases Nat.eq_zero_or_pos f with hf0 | hfpos
      · subst hf0
        have hlast : rc.max_attempts ≤ attempt + 1 := by omega
        have hae : attempt = rc.max_attempts - 1 := by omega
        rw [← hae]
        rw [hobs]
        simp [hlast, exhausted_with, err_of_obs]
      · have hlt : attempt + 1 < rc.max_attempts := by omega
        have hr := hretry attempt hlt
        rw [hobs] at hr
        simp only [err_of_obs] at hr
        simp only [hr, Nat.not_le.mpr hlt]
        norm_num
        exact ih (attempt + 1) _ _ (by omega) (by omega)
    | transport t =>
      simp only [hp, hobs]
      rcases Nat.eq_zero_or_pos f with hf0 | hfpos
      · subst hf0
        have hlast : rc.max_attempts ≤ attempt + 1 := by omega
        have hae : attempt = rc.max_attempts - 1 := by omega
        rw [← hae]
        rw [hobs]
        simp [hlast, exhausted_with, err_of_obs]
      · have hlt : attempt + 1 < rc.max_attempts := by omega
        have hr := hretry attempt hlt
        rw [hobs] at hr
        simp only [err_of_obs] at hr
        simp only [hr, Nat.not_le.mpr hlt]
        norm_num
        exact ih (attempt + 1) _ _ (by omega) (by omega)

/-- C8: when every one of the `max_attempts` attempts fails and each
non-final failure is retry-eligible, the call ends in a
`RetryExhaustedError` whose `attempts` field equals `max_attempts` and
whose `last_error` field is the final attempt's underlying error; for both
the GraphQL and the REST loop. -/
theorem c8_retry_exhausted_carries_last_error (isRest : Bool) (rc : RetryConfig)
    (obs : Nat → AttemptObs)
    (acquire : Nat → TokenState → Except PyErr (TokenState × Option String))
    (st : TokenState)
    (h1 : 1 ≤ rc.max_attempts)
    (hfail : ∀ a, a < rc.max_attempts → obs a ≠ .ok)
    (hretry : ∀ a, a + 1 < rc.max_attempts →
      should_retry (err_of_obs isRest (obs a)) a rc = true)
    (hacq : ∀ n s, ∃ p, acquire n s = .ok p) :
    exhausted_with (execute_request rc isRest obs acquire st)
      = some (rc.max_attempts,
              some (err_of_obs isRest (obs (rc.max_attempts - 1)))) :=
  exec_loop_exhausts rc isRest obs acquire hfail hretry hacq
    rc.max_attempts 0 st none (by omega) h1

/-- C8 witness: `max_attempts = 2` (as in the repository's own retry test)
and a permanently failing 500 response: the raised error is
`RetryExhaustedError` with `attempts = 2` and `last_error` the wrapped
error with status 500. -/
theorem c8_retry_exhausted_carries_last_error_witness :
    exhausted_with (execute_request
        (RetryConfig.mk 2 (1/100) 10 2 [408, 429, 500, 502, 503, 504] true true)
        false (fun _ => .httpStatus 500) (fun _ s => .ok (s, some "token"))
        (TokenState.mk none none))
      = some (2, some (.wrapped false (some 500)
              (some (.clientResponseError 500)))) := by
  have h := c8_retry_exhausted_carries_last_error false
    (RetryConfig.mk 2 (1/100) 10 2 [408, 429, 500, 502, 503, 504] true true)
    (fun _ => .httpStatus 500) (fun _ s => .ok (s, some "token"))
    (TokenState.mk none none)
    (by decide)
    (fun a _ h => by simp at h)
    (fun a ha => by
      have ha' : a + 1 < 2 := ha
      have ha0 : a = 0 := by omega
      subst ha0
      decide)
    (fun n s => ⟨(s, some "token"), rfl⟩)
  simpa [err_of_obs] using h

/-! String utilities modelling the Python primitives used by
oidchelper.py: substring search (`in`, `str.find`), `str.lower`,
`str.strip`, `str.replace`, slicing, `urllib.parse.parse_qs` /
`unquote_plus`, and the fragment/query split of `urlparse`.  All inputs
the claims exercise are ASCII, so ASCII case-folding and whitespace
classes coincide with Python's. -/

/-- The characters Python's `\s` and `str.strip` treat as whitespace
(ASCII part). -/
def pyWs (c : Char) : Bool :=
  c = ' ' || c = '\t' || c = '\n' || c = '\r' || c = '\x0b' || c = '\x0c'

/-- Drop leading whitespace. -/
def dropWsList (cs : List Char) : List Char := cs.dropWhile pyWs

/-- Drop trailing whitespace. -/
def rstripWsList (cs : List Char) : List Char := (cs.reverse.dropWhile pyWs).reverse

/-- Python `str.strip()`. -/
def pyStrip (s : String) : String := String.mk (rstripWsList (dropWsList s.data))

/-- Substring test on character lists (`needle in hay`). -/
def containsSub : List Char → List Char → Bool
  | [], needle => needle.isEmpty
  | c :: t, needle => needle.isPrefixOf (c :: t) || containsSub t needle

/-- Python `needle in hay`. -/
def strContains (hay needle : String) : Bool := containsSub hay.data needle.data

/-- Python `str.lower()` (ASCII). -/
def strLower (s : String) : String := String.mk (s.data.map Char.toLower)

/-- Index of the first occurrence of `needle` (`str.find`, `none` for -1). -/
def findSubIdx (needle : List Char) : List Char → Option Nat
  | [] => if needle.isEmpty then some 0 else none
  | c :: t =>
    if needle.isPrefixOf (c :: t) then some 0
    else (findSubIdx needle t).map (· + 1)

/-- Python `hay.find(needle, start)`. -/
def strFindFrom (hay needle : String) (start : Nat) : Option Nat :=
  (findSubIdx needle.data (hay.data.drop start)).map (· + start)

/-- Python `hay.find(needle)`. -/
def strFind (hay needle : String) : Option Nat := strFindFrom hay needle 0

/-- Python slice `s[i:j]` (for `i ≤ j`). -/
def pySlice (s : String) (i j : Nat) : String :=
  String.mk ((s.data.take j).drop i)

/-- Replace every occurrence of `s0 :: srest` by `repl` (`str.replace`);
`fuel` bounds the step count (every step consumes at least one character,
so `fuel = cs.length` is enough). -/
def replaceSub (s0 : Char) (srest repl : List Char) : Nat → List Char → List Char
  | _, [] => []
  | 0, cs => cs
  | fuel + 1, c :: t =>
    if (s0 :: srest).isPrefixOf (c :: t) then
      repl ++ replaceSub s0 srest repl fuel (t.drop srest.length)
    else c :: replaceSub s0 srest repl fuel t

/-- Python `s.replace(sub, repl)` for a non-empty `sub`. -/
def pyReplace (s sub repl : String) : String :=
  match sub.data with
  | [] => s
  | c :: rest => String.mk (replaceSub c rest repl.data s.data.length s.data)

/-- Value of a hex digit, both cases (`%xx` decoding). -/
def hexVal (c : Char) : Option Nat :=
  if '0' ≤ c ∧ c ≤ '9' then some (c.toNat - 48)
  else if 'a' ≤ c ∧ c ≤ 'f' then some (c.toNat - 87)
  else if 'A' ≤ c ∧ c ≤ 'F' then some (c.toNat - 55)
  else none

/-- `urllib.parse.unquote_plus`: `+` becomes a space, `%xx` a character;
a malformed escape stays literal.  (Real `unquote_plus` decodes the bytes
as UTF-8; the inputs here are ASCII, where the two agree.) -/
def unquotePlusList : List Char → List Char
  | [] => []
  | '+' :: t => ' ' :: unquotePlusList t
  | '%' :: h1 :: h2 :: t =>
    match hexVal h1, hexVal h2 with
    | some a, some b => Char.ofNat (16 * a + b) :: unquotePlusList t
    | _, _ => '%' :: unquotePlusList (h1 :: h2 :: t)
  | c :: t => c :: unquotePlusList t

/-- Split on every occurrence of `sep` (Python `str.split(sep)`). -/
def splitOnChar (sep : Char) : List Char → List (List Char)
  | [] => [[]]
  | c :: t =>
    if c = sep then [] :: splitOnChar sep t
    else
      match splitOnChar sep t with
      | [] => [[c]]
      | h :: r => (c :: h) :: r

/-- Split at the first occurrence of `sep` (`str.split(sep, 1)`): the part
before, and `none` when `sep` does not occur. -/
def splitFirstChar (sep : Char) : List Char → List Char × Option (List Char)
  | [] => ([], none)
  | c :: t =>
    if c = sep then ([], some t)
    else
      let r := splitFirstChar sep t
      (c :: r.1, r.2)

/-- `urllib.parse.parse_qsl` with default options: split the query string
on `&`; a part without `=` is skipped, as is one with an empty value
(`keep_blank_values=False`); names and values are `unquote_plus`-decoded. -/
def parse_qsl (s : String) : List (String × String) :=
  (splitOnChar '&' s.data).foldr
    (fun part acc =>
      match splitFirstChar '=' part with
      | (_, none) => acc
      | (name, some value) =>
        if value.isEmpty then acc
        else (String.mk (unquotePlusList name), String.mk (unquotePlusList value)) :: acc)
    []

/-- The fragment (after the first `#`) and the query (after the first `?`
of the pre-fragment part) of a URL, as `urlparse` splits it. -/
def urlFragmentQuery (url : String) : List Char × List Char :=
  let pf := splitFirstChar '#' url.data
  let pq := splitFirstChar '?' pf.1
  (pf.2.getD [], pq.2.getD [])

/-- oidchelper.py `_parse_redirect_params`: parse the fragment when it is
non-empty, else the query string. -/
def parse_redirect_params (finalUrl : String) : List (String × String) :=
  let fq := urlFragmentQuery finalUrl
  if !fq.1.isEmpty then parse_qsl (String.mk fq.1)
  else parse_qsl (String.mk fq.2)

/-- `parsed_params.get(key, [None])[0]`: the first value bound to `key`. -/
def qsFirst (params : List (String × String)) (key : String) : Option String :=
  (params.find? (fun p => p.1 == key)).map (·.2)

/-- `"key" in parsed_params`. -/
def qsHasKey (params : List (String × String)) (key : String) : Bool :=
  params.any (fun p => p.1 == key)

/-! A model of the stdlib `json.loads` (used by `_get_config`,
`_extract_settings` and `_check_b2c_error_response`): strict JSON —
objects, arrays, strings with the standard escapes, numbers (as `ℚ`),
`true`/`false`/`null`.  Not modelled: the non-standard `NaN`/`Infinity`
literals Python also accepts (treated as a parse failure here; no input in
this development contains them). -/

/-- A parsed JSON value. -/
inductive JVal where
  | null
  | bool (b : Bool)
  | num (q : ℚ)
  | str (s : String)
  | arr (elems : List JVal)
  | obj (fields : List (String × JVal))

/-- JSON whitespace. -/
def jWs (c : Char) : Bool := c = ' ' || c = '\t' || c = '\n' || c = '\r'

/-- Drop JSON whitespace. -/
def dropJWs (cs : List Char) : List Char := cs.dropWhile jWs

/-- Parse the body of a JSON string after its opening quote, handling the
standard escapes; an unescaped control character is invalid. -/
def parseJStringAux : List Char → Option (List Char × List Char)
  | [] => none
  | '"' :: rest => some ([], rest)
  | '\\' :: 'u' :: h1 :: h2 :: h3 :: h4 :: rest =>
    match hexVal h1, hexVal h2, hexVal h3, hexVal h4 with
    | some a, some b, some c, some d =>
      (parseJStringAux rest).map
        (fun r => (Char.ofNat (4096 * a + 256 * b + 16 * c + d) :: r.1, r.2))
    | _, _, _, _ => none
  | '\\' :: e :: rest =>
    let decoded : Option Char :=
      if e = '"' then some '"'
      else if e = '\\' then some '\\'
      else if e = '/' then some '/'
      else if e = 'b' then some '\x08'
      else if e = 'f' then some '\x0c'
      else if e = 'n' then some '\n'
      else if e = 'r' then some '\r'
      else if e = 't' then some '\t'
      else none
    match decoded with
    | some c => (parseJStringAux rest).map (fun r => (c :: r.1, r.2))
    | none => none
  | c :: rest =>
    if c.toNat < 32 then none
    else (parseJStringAux rest).map (fun r => (c :: r.1, r.2))

/-- Numeric value of a digit run. -/
def digitsVal (ds : List Char) : Nat :=
  ds.foldl (fun acc d => 10 * acc + (d.toNat - 48)) 0

/-- Parse a JSON number: `-? int frac? exp?` with `int = 0 | [1-9][0-9]*`. -/
def parseJNumber (cs : List Char) : Option (ℚ × List Char) :=
  let neg := cs.head? = some '-'
  let cs1 := if neg then cs.drop 1 else cs
  let ds := cs1.takeWhile Char.isDigit
  let cs2 := cs1.drop ds.length
  if ds.isEmpty then none
  else if ds.head? = some '0' ∧ ds.length ≠ 1 then none
  else
    let fr := if cs2.head? = some '.' then some ((cs2.drop 1).takeWhile Char.isDigit) else none
    match fr with
    | some fs =>
      if fs.isEmpty then none
      else finishJNumber neg ds fs (cs2.drop (1 + fs.length))
    | none => finishJNumber neg ds [] cs2
where
  finishJNumber (neg : Bool) (ds fs : List Char) (cs3 : List Char) : Option (ℚ × List Char) :=
    let base : ℚ := (digitsVal ds : ℚ) + (digitsVal fs : ℚ) / (10 : ℚ) ^ fs.length
    let signed := if neg then -base else base
    if cs3.head? = some 'e' ∨ cs3.head? = some 'E' then
      let cs4 := cs3.drop 1
      let eneg := cs4.head? = some '-'
      let cs5 := if cs4.head? = some '-' ∨ cs4.head? = some '+' then cs4.drop 1 else cs4
      let es := cs5.takeWhile Char.isDigit
      if es.isEmpty then none
      else
        let q := if eneg then signed / (10 : ℚ) ^ digitsVal es
                 else signed * (10 : ℚ) ^ digitsVal es
        some (q, cs5.drop es.length)
    else some (signed, cs3)

mutual

/-- Parse one JSON value (fuel-bounded recursive descent). -/
def parseJValue : Nat → List Char → Option (JVal × List Char)
  | 0, _ => none
  | fuel + 1, cs =>
    match dropJWs cs with
    | '{' :: rest =>
      match dropJWs rest with
      | '}' :: rest2 => some (.obj [], rest2)
      | rest2 => (parseJMembers fuel rest2).map (fun r => (.obj r.1, r.2))
    | '[' :: rest =>
      match dropJWs rest with
      | ']' :: rest2 => some (.arr [], rest2)
      | rest2 => (parseJElems fuel rest2).map (fun r => (.arr r.1, r.2))
    | '"' :: rest => (parseJStringAux rest).map (fun r => (.str (String.mk r.1), r.2))
    | 't' :: 'r' :: 'u' :: 'e' :: rest => some (.bool true, rest)
    | 'f' :: 'a' :: 'l' :: 's' :: 'e' :: rest => some (.bool false, rest)
    | 'n' :: 'u' :: 'l' :: 'l' :: rest => some (.null, rest)
    | rest => (parseJNumber rest).map (fun r => (.num r.1, r.2))

/-- Parse the members of a non-empty JSON object, starting at the first
key; consumes the closing brace. -/
def parseJMembers : Nat → List Char → Option (List (String × JVal) × List Char)
  | 0, _ => none
  | fuel + 1, cs =>
    match dropJWs cs with
    | '"' :: rest =>
      match parseJStringAux rest with
      | none => none
      | some (key, rest2) =>
        match dropJWs rest2 with
        | ':' :: rest3 =>
          match parseJValue fuel rest3 with
          | none => none
          | some (v, rest4) =>
            match dropJWs rest4 with
            | ',' :: rest5 =>
              (parseJMembers fuel rest5).map
                (fun r => ((String.mk key, v) :: r.1, r.2))
            | '}' :: rest5 => some ([(String.mk key, v)], rest5)
            | _ => none
        | _ => none
    | _ => none

/-- Parse the elements of a non-empty JSON array, consuming the closing
bracket. -/
def parseJElems : Nat → List Char → Option (List JVal × List Char)
  | 0, _ => none
  | fuel + 1, cs =>
    match parseJValue fuel cs with
    | none => none
    | some (v, rest) =>
      match dropJWs rest with
      | ',' :: rest2 => (parseJElems fuel rest2).map (fun r => (v :: r.1, r.2))
      | ']' :: rest2 => some ([v], rest2)
      | _ => none

end

/-- `json.loads`: parse one value and require only whitespace after it. -/
def jsonLoads (s : String) : Option JVal :=
  match parseJValue (2 * s.length + 4) s.data with
  | some (v, rest) => if (dropJWs rest).isEmpty then some v else none
  | none => none

/-- `dict.get` on a parsed JSON object (Python keeps the last duplicate). -/
def jObjGet (fields : List (String × JVal)) (key : String) : Option JVal :=
  (fields.reverse.find? (fun p => p.1 == key)).map (·.2)

/-! The soft-error detector `_check_b2c_error_response` and the settings
extractor `_extract_settings` of oidchelper.py.  Each `re.search` of the
source is implemented as a leftmost scan (`scanFor`) of a
match-at-position function faithful to the pattern. -/

/-- Try to match `lit` literally at the head. -/
def litAt (lit cs : List Char) : Option (List Char) :=
  if lit.isPrefixOf cs then some (cs.drop lit.length) else none

/-- `re.search`: try the matcher at each position, leftmost first. -/
def scanFor {α : Type} (matchAt : List Char → Option α) : List Char → Option α
  | [] => matchAt []
  | c :: t =>
    match matchAt (c :: t) with
    | some r => some r
    | none => scanFor matchAt t

/-- Match `var GLOBALEX\s*=\s*\x7b([^\x7d]+)\x7d` at the head; returns the
captured group. -/
def globalexAt (cs : List Char) : Option (List Char) :=
  (litAt "var GLOBALEX".data cs).bind fun cs1 =>
  match dropWsList cs1 with
  | '=' :: cs3 =>
    match dropWsList cs3 with
    | '{' :: cs5 =>
      let grp := cs5.takeWhile (· ≠ '}')
      if grp.isEmpty then none
      else
        match cs5.drop grp.length with
        | '}' :: _ => some grp
        | _ => none
    | _ => none
  | _ => none

/-- oidchelper.py lines 377-388: detect a `GLOBALEX` error object; parse it
as JSON and read `Detail` (default "Unknown error"); a parse failure falls
through to the next checks.  (`Detail` is read as a string: a non-string
value would crash the source later at `.lower()`.) -/
def check_globalex (content : String) : Option (String × String) :=
  match scanFor globalexAt content.data with
  | none => none
  | some grp =>
    match jsonLoads (String.mk ('{' :: (grp ++ ['}']))) with
    | some (.obj fields) =>
      let detail :=
        match jObjGet fields "Detail" with
        | some (.str s) => s
        | _ => "Unknown error"
      some ("B2C_EXCEPTION", detail)
    | _ => none

/-- Match `"api"\s*:\s*"GlobalException"` at the head. -/
def apiGlobalExceptionAt (cs : List Char) : Option Unit :=
  (litAt "\"api\"".data cs).bind fun cs1 =>
  match dropWsList cs1 with
  | ':' :: cs3 =>
    (litAt "\"GlobalException\"".data (dropWsList cs3)).map fun _ => ()
  | _ => none

/-- Match `"error-title"\s*:\s*"([^"]+)"` at the head; the capture. -/
def errorTitleAt (cs : List Char) : Option (List Char) :=
  (litAt "\"error-title\"".data cs).bind fun cs1 =>
  match dropWsList cs1 with
  | ':' :: cs3 =>
    match dropWsList cs3 with
    | '"' :: cs5 =>
      let cap := cs5.takeWhile (· ≠ '"')
      if cap.isEmpty then none
      else
        match cs5.drop cap.length with
        | '"' :: _ => some cap
        | _ => none
    | _ => none
  | _ => none

/-- oidchelper.py lines 391-398: a `"api": "GlobalException"` marker; the
error title comes from the `"error-title"` capture (default
"Authentication error") with `&#39;` and `&quot;` unescaped. -/
def check_global_exception (content : String) : Option (String × String) :=
  match scanFor apiGlobalExceptionAt content.data with
  | none => none
  | some _ =>
    let errorTitle :=
      match scanFor errorTitleAt content.data with
      | some cap => String.mk cap
      | none => "Authentication error"
    some ("GLOBAL_EXCEPTION",
      pyReplace (pyReplace errorTitle "&#39;" "\x27") "&quot;" "\"")

/-- Match `(AADB2C\d+)[:\s]+([^<"\n]+)` at the head, with the regex engine's
backtracking of the greedy separator run when the second group would
otherwise be empty.  Returns (group 1, group 2). -/
def aadb2cAt (cs : List Char) : Option (String × String) :=
  (litAt "AADB2C".data cs).bind fun cs1 =>
  let ds := cs1.takeWhile Char.isDigit
  if ds.isEmpty then none
  else
    let cs2 := cs1.drop ds.length
    let seps := cs2.takeWhile (fun c => c = ':' || pyWs c)
    if seps.isEmpty then none
    else
      let after := cs2.drop seps.length
      let allowed := fun (c : Char) => !(c = '<' || c = '"' || c = '\n')
      let run := after.takeWhile allowed
      if !run.isEmpty then
        some ("AADB2C" ++ String.mk ds, String.mk run)
      else if seps.length ≥ 2 then
        some ("AADB2C" ++ String.mk ds, String.mk (seps.drop (seps.length - 1)))
      else none

/-- oidchelper.py lines 401-403: a B2C error code with its trailing text
(stripped). -/
def check_aadb2c (content : String) : Option (String × String) :=
  (scanFor aadb2cAt content.data).map fun r => (r.1, pyStrip r.2)

/-- oidchelper.py lines 406-411: the password / account-not-found /
account-locked page texts. -/
def check_password_account (content : String) : Option (String × String) :=
  if strContains content "Your password is incorrect" then
    some ("INVALID_PASSWORD", "Your password is incorrect")
  else if strContains content "We can\x27t find an account"
      || strContains content "account with that email" then
    some ("ACCOUNT_NOT_FOUND", "Account not found with that email address")
  else if strContains (strLower content) "account is locked" then
    some ("ACCOUNT_LOCKED", "Account is locked")
  else none

/-- oidchelper.py `_check_b2c_error_response`: the four checks in source
order, first hit wins. -/
def check_b2c_error_response (content : String) : Option (String × String) :=
  match check_globalex content with
  | some r => some r
  | none =>
    match check_global_exception content with
    | some r => some r
    | none =>
      match check_aadb2c content with
      | some r => some r
      | none => check_password_account content

/-- oidchelper.py `_post_credentials`, after the POST returned
`(responseContent, status)`: non-200 raises `InvalidAuthError`; on 200 a
detected soft error raises `InvalidAuthError` when its detail mentions
"password" or "credential" and `CannotConnectError` otherwise; an empty or
undetected body proceeds. -/
def post_credentials_result (postStatus : Nat) (responseContent : String) :
    Except PyErr Unit :=
  if postStatus ≠ 200 then .error (.invalidAuth "Invalid username or password")
  else if responseContent ≠ "" then
    match check_b2c_error_response responseContent with
    | some r =>
      if strContains (strLower r.2) "password" || strContains (strLower r.2) "credential" then
        .error (.invalidAuth ("Invalid username or password: " ++ r.2))
      else .error (.cannotConnect ("Authentication failed: " ++ r.2))
    | none => .ok ()
  else .ok ()

/-- Match `var\s+SETTINGS\s*=\s*(\x7b[^;]+\x7d)\s*;` at the head; the
captured group, with the regex engine's backtracking inside `[^;]+` (the
capture ends at the last `\x7d` of the pre-`;` region that only
whitespace follows). -/
def settingsRegexAt (cs : List Char) : Option (List Char) :=
  (litAt "var".data cs).bind fun cs1 =>
  match cs1 with
  | c :: t =>
    if pyWs c then
      (litAt "SETTINGS".data (t.dropWhile pyWs)).bind fun cs3 =>
      match dropWsList cs3 with
      | '=' :: cs5 =>
        match dropWsList cs5 with
        | '{' :: cs7 =>
          let region := cs7.takeWhile (· ≠ ';')
          match cs7.drop region.length with
          | ';' :: _ =>
            let trimmed := rstripWsList region
            match trimmed.getLast? with
            | some '}' =>
              let body := trimmed.dropLast
              if body.isEmpty then none
              else some ('{' :: (body ++ ['}']))
            | _ => none
          | _ => none
        | _ => none
      | _ => none
    else none
  | [] => none

/-- oidchelper.py `_extract_settings`: strategy 1 slices between
`var SETTINGS = ` and the next `;` and parses it; on any failure strategy
2 runs the regex; a regex-capture parse failure returns `None`. -/
def extract_settings (authContent : String) : Option JVal :=
  let strategy2 :=
    match scanFor settingsRegexAt authContent.data with
    | some cap => jsonLoads (pyStrip (String.mk cap))
    | none => none
  match strFind authContent "var SETTINGS = " with
  | some i =>
    match strFindFrom authContent ";" i with
    | some j =>
      match jsonLoads (pyStrip (pySlice authContent (i + 15) j)) with
      | some v => some v
      | none => strategy2
    | none => strategy2
  | none => strategy2

/-- oidchelper.py `_get_config`, after the discovery GET returned
`(configText, status)`: non-200 or empty body raises
`CannotConnectError`; otherwise `json.loads` runs unguarded, so an
unparsable body raises `json.JSONDecodeError`. -/
def get_config_result (configText : String) (status : Nat) : Except PyErr JVal :=
  if status ≠ 200 ∨ configText = "" then
    .error (.cannotConnect "Failed to get configuration")
  else
    match jsonLoads configText with
    | some v => .ok v
    | none => .error .jsonDecodeError

/-- C2 counterexample: an account-locked page detected on a 200 response is
raised as `CannotConnectError`, not `InvalidAuthError` (its detail
"Account is locked" mentions neither "password" nor "credential"), contrary
to the claim that detected account-locked pages surface as InvalidAuth. -/
theorem c2_account_locked_counterexample :
    check_b2c_error_response "Your account is locked." =
      some ("ACCOUNT_LOCKED", "Account is locked")
    ∧ post_credentials_result 200 "Your account is locked." =
      .error (.cannotConnect "Authentication failed: Account is locked") :=
  ⟨rfl, rfl⟩

/-- C2 (amended): every detected soft error on a 200 credential POST raises
(never proceeds); it is `InvalidAuthError` exactly when the detail
mentions "password" or "credential" (wrong-password pages), and
`CannotConnectError` otherwise (account-not-found, account-locked). -/
theorem c2_soft_error_classification (content : String) (r : String × String)
    (hdet : check_b2c_error_response content = some r) :
    post_credentials_result 200 content =
      (if strContains (strLower r.2) "password"
          || strContains (strLower r.2) "credential"
       then .error (.invalidAuth ("Invalid username or password: " ++ r.2))
       else .error (.cannotConnect ("Authentication failed: " ++ r.2))) := by
  have hnone : check_b2c_error_response "" = none := rfl
  have hne : content ≠ "" := by
    intro h
    rw [h, hnone] at hdet
    cases hdet
  unfold post_credentials_result
  simp [hne, hdet]

/-- C2 witness: Scenario B — the wrong-password page on a 200 response is
detected and raised as `InvalidAuthError`. -/
theorem c2_soft_error_classification_witness :
    post_credentials_result 200 "Your password is incorrect" =
      .error (.invalidAuth "Invalid username or password: Your password is incorrect") :=
  (c2_soft_error_classification "Your password is incorrect"
    ("INVALID_PASSWORD", "Your password is incorrect") rfl).trans rfl

/-- C4 counterexample: a 200 discovery response whose body is not JSON
raises `json.JSONDecodeError` (the `json.loads` call in `_get_config` is
unguarded and `async_auth_oidc` catches only `aiohttp.ClientError`), not
the claimed `CannotConnectError`. -/
theorem c4_unparsable_config_counterexample :
    get_config_result "notjson" 200 = .error .jsonDecodeError :=
  rfl

/-- C4 (amended): discovery raises `CannotConnectError` exactly when the
status is not 200 or the body is empty; a 200 non-empty unparsable body
raises a JSON decode error instead; a parsable one succeeds. -/
theorem c4_get_config_classification (text : String) (status : Nat) :
    (get_config_result text status = .error (.cannotConnect "Failed to get configuration")
      ↔ (status ≠ 200 ∨ text = ""))
    ∧ (status = 200 → text ≠ "" → jsonLoads text = none →
        get_config_result text status = .error .jsonDecodeError)
    ∧ (status = 200 → text ≠ "" → ∀ v, jsonLoads text = some v →
        get_config_result text status = .ok v) := by
  by_cases h : status ≠ 200 ∨ text = ""
  · refine ⟨?_, ?_, ?_⟩
    · simp [get_config_result, h]
    · intro hs ht
      exact absurd h (by simp [hs, ht])
    · intro hs ht
      exact absurd h (by simp [hs, ht])
  · have hif : ¬ (status ≠ 200 ∨ text = "") := h
    refine ⟨?_, ?_, ?_⟩
    · constructor
      · intro heq
        unfold get_config_result at heq
        rw [if_neg hif] at heq
        cases hj : jsonLoads text with
        | none => rw [hj] at heq; cases heq
        | some v => rw [hj] at heq; cases heq
      · intro hcontra
        exact absurd hcontra hif
    · intro _ _ hj
      unfold get_config_result
      rw [if_neg hif, hj]
    · intro _ _ v hj
      unfold get_config_result
      rw [if_neg hif, hj]

/-- C4 witness: a non-200 status and an empty body give
`CannotConnectError`; the unparsable 200 body gives the JSON decode
error. -/
theorem c4_get_config_classification_witness :
    get_config_result "" 404 = .error (.cannotConnect "Failed to get configuration")
    ∧ get_config_result "notjson" 200 = .error .jsonDecodeError :=
  ⟨(c4_get_config_classification "" 404).1.mpr (Or.inr rfl),
   (c4_get_config_classification "notjson" 200).2.1 rfl (by decide) rfl⟩

/-- auth.py `NationalGridAuth.REDIRECT_URI`. -/
def REDIRECT_URI : String := "https://myaccount.nationalgrid.com/auth-landing"

/-- oidchelper.py `_extract_auth_result`: nothing unless the final URL is
truthy and starts with the redirect URI; otherwise read `code` and
`id_token` from the redirect parameters.  `verifySub` models
`_extract_sub_from_id_token` (external JWKS-validated JWT decoding). -/
def extract_auth_result (finalUrl redirectUri : String)
    (verifySub : String → Option String) : Option String × Option String :=
  if finalUrl = "" || !(redirectUri.data.isPrefixOf finalUrl.data) then (none, none)
  else
    let ps := parse_redirect_params finalUrl
    let authCode := qsFirst ps "code"
    let idToken := qsFirst ps "id_token"
    (authCode, if pyTruthyS idToken then verifySub (idToken.getD "") else none)

/-- oidchelper.py `_confirm_signin`, after the confirm GET returned
`(confirmFinalUrl, confirmStatus)`: 403 is `InvalidAuthError`, any other
non-200 `CannotConnectError`; with a final URL, extract the result; with
no code but an `error` redirect parameter raise `InvalidAuthError`;
otherwise return what was extracted. -/
def confirm_signin_result (confirmStatus : Nat) (confirmFinalUrl redirectUri : String)
    (verifySub : String → Option String) :
    Except PyErr (Option String × Option String) :=
  if confirmStatus ≠ 200 then
    if confirmStatus = 403 then .error (.invalidAuth "Invalid username or password")
    else .error (.cannotConnect "Failed to confirm signin")
  else if confirmFinalUrl ≠ "" then
    let r := extract_auth_result confirmFinalUrl redirectUri verifySub
    match r.1 with
    | some _ => .ok r
    | none =>
      if qsHasKey (parse_redirect_params confirmFinalUrl) "error" then
        .error (.invalidAuth "Sign-in failed")
      else .ok r
  else .ok (none, none)

/-- Which route `_get_auth` took: the short-circuit directly from the
authorization response (no credential POST, no policy-confirm call), or
the full credential flow. -/
inductive AuthPath where
  | shortCircuit
  | fullFlow
deriving DecidableEq

/-- The transport observations of one login attempt: the authorization GET
(content, final URL, status), the credential POST (status, body) and the
policy-confirm GET (status, final URL). -/
structure AuthObs where
  authContent : String
  authFinalUrl : String
  authStatus : Nat
  postStatus : Nat
  postBody : String
  confirmStatus : Nat
  confirmFinalUrl : String
deriving DecidableEq

/-- oidchelper.py `_get_auth`: non-200 or empty body raises
`CannotConnectError`; with no extractable settings, extract the result
straight from the final URL (`.shortCircuit`); otherwise POST the
credentials and confirm the sign-in (`.fullFlow`). -/
def get_auth_result (redirectUri : String) (verifySub : String → Option String)
    (o : AuthObs) : Except PyErr (AuthPath × Option String × Option String) :=
  if o.authStatus ≠ 200 ∨ o.authContent = "" then
    .error (.cannotConnect "Failed to get authorization")
  else
    match extract_settings o.authContent with
    | none =>
      let r := extract_auth_result o.authFinalUrl redirectUri verifySub
      .ok (.shortCircuit, r.1, r.2)
    | some _ =>
      match post_credentials_result o.postStatus o.postBody with
      | .error e => .error e
      | .ok _ =>
        match confirm_signin_result o.confirmStatus o.confirmFinalUrl redirectUri verifySub with
        | .error e => .error e
        | .ok r => .ok (.fullFlow, r.1, r.2)

/-- The form body of the token-exchange POST, oidchelper.py `_get_access`
lines 294-301. -/
def token_request_body (clientId authCode redirectUri codeVerifier scopeAccess : String) :
    List (String × String) :=
  [("client_id", clientId), ("grant_type", "authorization_code"),
   ("code", authCode), ("redirect_uri", redirectUri),
   ("code_verifier", codeVerifier), ("scope", scopeAccess)]

/-- oidchelper.py `async_auth_oidc` from the authorization step to the
token-exchange request: a `None` auth code raises
`CannotConnectError("Failed to obtain authorization code")`; with a code
the flow proceeds to `_get_access` with the body `token_request_body`. -/
def auth_flow_result (clientId redirectUri codeVerifier scopeAccess : String)
    (verifySub : String → Option String) (o : AuthObs) :
    Except PyErr (AuthPath × String × List (String × String)) :=
  match get_auth_result redirectUri verifySub o with
  | .error e => .error e
  | .ok r =>
    match r.2.1 with
    | none => .error (.cannotConnect "Failed to obtain authorization code")
    | some code =>
      .ok (r.1, code, token_request_body clientId code redirectUri codeVerifier scopeAccess)

/-- C5 counterexample: on the short-circuit path a final URL with an
`error` parameter and no `code` is reported as
`CannotConnectError("Failed to obtain authorization code")`, not the
claimed `InvalidAuthError` — `_get_auth`'s short-circuit branch never
checks the `error` parameter. -/
theorem c5_short_circuit_error_counterexample :
    auth_flow_result "cid" REDIRECT_URI "ver" "scope" (fun _ => none)
        (AuthObs.mk "x"
          "https://myaccount.nationalgrid.com/auth-landing#error=access_denied&error_description=User+cancelled"
          200 200 "" 200 "")
      = .error (.cannotConnect "Failed to obtain authorization code") :=
  rfl

/-- C5 (amended): after confirm-signin, no code with an `error` parameter
raises `InvalidAuthError` and no code without one ends in
`CannotConnectError("Failed to obtain authorization code")`; but on the
short-circuit path every no-code outcome — `error` parameter or not — is
the `CannotConnectError`, because that path never inspects `error`. -/
theorem c5_no_code_classification :
    (∀ (url ru : String) (vs : String → Option String),
      url ≠ "" → (extract_auth_result url ru vs).1 = none →
      qsHasKey (parse_redirect_params url) "error" = true →
      confirm_signin_result 200 url ru vs = .error (.invalidAuth "Sign-in failed"))
    ∧ (∀ (cid ru cv sc : String) (vs : String → Option String) (o : AuthObs)
        (p : AuthPath) (s : Option String),
      get_auth_result ru vs o = .ok (p, none, s) →
      auth_flow_result cid ru cv sc vs o =
        .error (.cannotConnect "Failed to obtain authorization code"))
    ∧ (∀ (cid ru cv sc : String) (vs : String → Option String) (o : AuthObs),
      o.authStatus = 200 → o.authContent ≠ "" →
      extract_settings o.authContent = none →
      (extract_auth_result o.authFinalUrl ru vs).1 = none →
      auth_flow_result cid ru cv sc vs o =
        .error (.cannotConnect "Failed to obtain authorization code")) := by
  refine ⟨?_, ?_, ?_⟩
  · intro url ru vs hne hcode herr
    unfold confirm_signin_result
    simp [hne, hcode, herr]
  · intro cid ru cv sc vs o p s hga
    unfold auth_flow_result
    rw [hga]
  · intro cid ru cv sc vs o hs hc hset hcode
    unfold auth_flow_result get_auth_result
    rw [if_neg (by simp [hs, hc]), hset]
    simp [hcode]

/-- C5 witness: Scenario C on the confirm path — the
`#error=access_denied&error_description=User+cancelled` redirect raises
`InvalidAuthError`; and a code-less, error-less confirm redirect composed
through the flow gives the no-code `CannotConnectError`. -/
theorem c5_no_code_classification_witness :
    confirm_signin_result 200
        "https://myaccount.nationalgrid.com/auth-landing#error=access_denied&error_description=User+cancelled"
        REDIRECT_URI (fun _ => none)
      = .error (.invalidAuth "Sign-in failed")
    ∧ auth_flow_result "cid" REDIRECT_URI "ver" "scope" (fun _ => none)
        (AuthObs.mk "x" "https://myaccount.nationalgrid.com/auth-landing" 200 200 "" 200 "")
      = .error (.cannotConnect "Failed to obtain authorization code") := by
  constructor
  · exact c5_no_code_classification.1
      "https://myaccount.nationalgrid.com/auth-landing#error=access_denied&error_description=User+cancelled"
      REDIRECT_URI (fun _ => none) (by decide) rfl rfl
  · exact c5_no_code_classification.2.2 "cid" REDIRECT_URI "ver" "scope" (fun _ => none)
      (AuthObs.mk "x" "https://myaccount.nationalgrid.com/auth-landing" 200 200 "" 200 "")
      rfl (by decide) rfl rfl

/-- C6 counterexample: with a 200 authorization response whose body is
empty — so no settings blob is extractable — and a final URL carrying
`code=abc123`, `_get_auth` raises
`CannotConnectError("Failed to get authorization")` at its
`status != 200 or not auth_content` check instead of proceeding to the
token exchange. -/
theorem c6_empty_body_counterexample :
    auth_flow_result "cid" REDIRECT_URI "ver" "scope" (fun _ => none)
        (AuthObs.mk "" "https://myaccount.nationalgrid.com/auth-landing#code=abc123"
          200 200 "" 200 "")
      = .error (.cannotConnect "Failed to get authorization") :=
  rfl

/-- C6 (amended): when the authorization GET returns 200 with a non-empty
body from which no settings blob is extractable and the final URL starts
with the redirect URI carrying `code=X`, the Authenticator takes the
short-circuit path — no credential POST, no policy-confirm call — and
proceeds to the token exchange whose body carries `code=X` (and the
verifier). -/
theorem c6_short_circuit_to_token_exchange (cid ru cv sc : String)
    (vs : String → Option String) (o : AuthObs) (x : String) (sub : Option String)
    (hs : o.authStatus = 200) (hc : o.authContent ≠ "")
    (hset : extract_settings o.authContent = none)
    (hcode : extract_auth_result o.authFinalUrl ru vs = (some x, sub)) :
    get_auth_result ru vs o = .ok (.shortCircuit, some x, sub)
    ∧ auth_flow_result cid ru cv sc vs o =
        .ok (.shortCircuit, x, token_request_body cid x ru cv sc)
    ∧ ("code", x) ∈ token_request_body cid x ru cv sc
    ∧ ("code_verifier", cv) ∈ token_request_body cid x ru cv sc := by
  have hga : get_auth_result ru vs o = .ok (.shortCircuit, some x, sub) := by
    unfold get_auth_result
    rw [if_neg (by simp [hs, hc]), hset]
    simp [hcode]
  refine ⟨hga, ?_, ?_, ?_⟩
  · unfold auth_flow_result
    rw [hga]
  · simp [token_request_body]
  · simp [token_request_body]

/-- C6 witness: Scenario A — a challenge-free page (no settings blob) and
the final URL `redirect_uri#code=abc123`: the flow short-circuits to the
token exchange with `code=abc123`. -/
theorem c6_short_circuit_to_token_exchange_witness :
    get_auth_result REDIRECT_URI (fun _ => none)
        (AuthObs.mk "x" "https://myaccount.nationalgrid.com/auth-landing#code=abc123"
          200 200 "" 200 "")
      = .ok (.shortCircuit, some "abc123", none)
    ∧ auth_flow_result "cid" REDIRECT_URI "ver" "scope" (fun _ => none)
        (AuthObs.mk "x" "https://myaccount.nationalgrid.com/auth-landing#code=abc123"
          200 200 "" 200 "")
      = .ok (.shortCircuit, "abc123",
          token_request_body "cid" "abc123" REDIRECT_URI "ver" "scope") := by
  have h := c6_short_circuit_to_token_exchange "cid" REDIRECT_URI "ver" "scope"
    (fun _ => none)
    (AuthObs.mk "x" "https://myaccount.nationalgrid.com/auth-landing#code=abc123"
      200 200 "" 200 "")
    "abc123" none rfl (by decide) rfl rfl
  exact ⟨h.1, h.2.1⟩

/-! PKCE: oidchelper.py `_generate_code_challenge` computes
`base64.urlsafe_b64encode(hashlib.sha256(verifier.encode("utf-8")).digest())`
and strips the `=` padding.  SHA-256 itself is the stdlib collaborator:
it is a parameter (`sha256`) applied identically on both sides, so every
theorem below holds for the real hash. -/

/-- UTF-8 encoding of one character (`str.encode("utf-8")`). -/
def utf8EncodeChar (c : Char) : List Nat :=
  let n := c.toNat
  if n < 128 then [n]
  else if n < 2048 then [192 + n / 64, 128 + n % 64]
  else if n < 65536 then [224 + n / 4096, 128 + (n / 64) % 64, 128 + n % 64]
  else [240 + n / 262144, 128 + (n / 4096) % 64, 128 + (n / 64) % 64, 128 + n % 64]

/-- UTF-8 encoding of a string, as a byte list. -/
def utf8Encode (s : String) : List Nat := (s.data.map utf8EncodeChar).flatten

/-- The URL-safe base64 alphabet (`base64.urlsafe_b64encode`: standard
alphabet with `-` and `_` at indices 62 and 63). -/
def b64UrlsafeAlphabet : List Char :=
  "ABCDEFGHIJKLMNOPQRSTUVWXYZabcdefghijklmnopqrstuvwxyz0123456789-_".data

/-- The alphabet character at a 6-bit index. -/
def b64Char (n : Nat) : Char := b64UrlsafeAlphabet.getD n 'A'

/-- `base64.urlsafe_b64encode`: three bytes become four characters; a
leftover of one or two bytes is padded with `=`. -/
def base64EncodePadded : List Nat → List Char
  | [] => []
  | [b1] => [b64Char (b1 / 4), b64Char (b1 % 4 * 16), '=', '=']
  | [b1, b2] => [b64Char (b1 / 4), b64Char (b1 % 4 * 16 + b2 / 16), b64Char (b2 % 16 * 4), '=']
  | b1 :: b2 :: b3 :: rest =>
    b64Char (b1 / 4) :: b64Char (b1 % 4 * 16 + b2 / 16)
      :: b64Char (b2 % 16 * 4 + b3 / 64) :: b64Char (b3 % 64)
      :: base64EncodePadded rest

/-- Base64url without padding, encoded directly (the spec's
`base64url_nopad`): same digits, no `=` characters produced. -/
def base64EncodeNopad : List Nat → List Char
  | [] => []
  | [b1] => [b64Char (b1 / 4), b64Char (b1 % 4 * 16)]
  | [b1, b2] => [b64Char (b1 / 4), b64Char (b1 % 4 * 16 + b2 / 16), b64Char (b2 % 16 * 4)]
  | b1 :: b2 :: b3 :: rest =>
    b64Char (b1 / 4) :: b64Char (b1 % 4 * 16 + b2 / 16)
      :: b64Char (b2 % 16 * 4 + b3 / 64) :: b64Char (b3 % 64)
      :: base64EncodeNopad rest

/-- Python `.rstrip("=")` on a character list. -/
def rstripEqChar (cs : List Char) : List Char :=
  (cs.reverse.dropWhile (fun c => c = '=')).reverse

/-- oidchelper.py `_generate_code_challenge`: SHA-256 the verifier's UTF-8
bytes, urlsafe-base64-encode, strip the `=` padding. -/
def generate_code_challenge (sha256 : List Nat → List Nat) (codeVerifier : String) :
    String :=
  String.mk (rstripEqChar (base64EncodePadded (sha256 (utf8Encode codeVerifier))))

/-- Modelled from the spec: `base64url_nopad(bytes)` — base64url encoding
with no padding, P1's right-hand side. -/
def base64url_nopad (bytes : List Nat) : String :=
  String.mk (base64EncodeNopad bytes)

/-- No alphabet character is the padding character. -/
theorem b64Char_ne_pad (n : Nat) : b64Char n ≠ '=' := by
  unfold b64Char List.getD
  cases h : b64UrlsafeAlphabet.get? n with
  | none => simp
  | some c =>
    have hc : c ∈ b64UrlsafeAlphabet := List.get?_mem h
    have hne : ('=' : Char) ∉ b64UrlsafeAlphabet := by decide
    simp only [Option.getD_some]
    intro he
    exact hne (he ▸ hc)

/-- `dropWhile` distributes over an append whose head part does not vanish. -/
theorem dropWhile_append_of_ne_nil {α : Type} (p : α → Bool) (a b : List α)
    (h : a.dropWhile p ≠ []) :
    (a ++ b).dropWhile p = a.dropWhile p ++ b := by
  induction a with
  | nil => exact absurd rfl h
  | cons c t ih =>
    by_cases hc : p c = true
    · rw [List.cons_append, List.dropWhile_cons_of_pos hc, List.dropWhile_cons_of_pos hc]
      exact ih (by rwa [List.dropWhile_cons_of_pos hc] at h)
    · rw [List.cons_append, List.dropWhile_cons_of_neg hc, List.dropWhile_cons_of_neg hc,
        List.cons_append]

/-- `.rstrip("=")` over an append whose tail does not strip away. -/
theorem rstripEq_append_of_ne_nil (xs ys : List Char) (h : rstripEqChar ys ≠ []) :
    rstripEqChar (xs ++ ys) = xs ++ rstripEqChar ys := by
  unfold rstripEqChar at h ⊢
  rw [List.reverse_append]
  have h' : ys.reverse.dropWhile (fun c => c = '=') ≠ [] := by
    intro he
    rw [he] at h
    exact h rfl
  rw [dropWhile_append_of_ne_nil _ _ _ h', List.reverse_append, List.reverse_reverse]

/-- `.rstrip("=")` keeps a list whose last character is not `=`. -/
theorem rstripEq_last_ne (xs : List Char) (c : Char) (hc : c ≠ '=') :
    rstripEqChar (xs ++ [c]) = xs ++ [c] := by
  unfold rstripEqChar
  rw [List.reverse_append]
  show ((c :: xs.reverse).dropWhile (fun c => c = '=')).reverse = xs ++ [c]
  rw [List.dropWhile_cons_of_neg (by simpa using hc)]
  rw [List.reverse_cons, List.reverse_reverse]

/-- The direct no-padding encoder never returns the empty string on a
non-empty input. -/
theorem base64EncodeNopad_ne_nil (b : Nat) (rest : List Nat) :
    base64EncodeNopad (b :: rest) ≠ [] := by
  cases rest with
  | nil => simp [base64EncodeNopad]
  | cons b2 r2 =>
    cases r2 with
    | nil => simp [base64EncodeNopad]
    | cons b3 r3 => simp [base64EncodeNopad]

/-- Stripping the `=` padding from the padded encoding gives exactly the
direct no-padding encoding. -/
theorem rstrip_padded_eq_nopad (bs : List Nat) :
    rstripEqChar (base64EncodePadded bs) = base64EncodeNopad bs := by
  match bs with
  | [] => rfl
  | [b1] =>
    show rstripEqChar ([b64Char (b1 / 4), b64Char (b1 % 4 * 16)] ++ ['=', '=']) = _
    unfold rstripEqChar
    rw [List.reverse_append]
    show (('=' :: '=' :: [b64Char (b1 / 4), b64Char (b1 % 4 * 16)].reverse).dropWhile
      (fun c => c = '=')).reverse = _
    rw [List.dropWhile_cons_of_pos (by simp), List.dropWhile_cons_of_pos (by simp)]
    show ((b64Char (b1 % 4 * 16) :: [b64Char (b1 / 4)]).dropWhile (fun c => c = '=')).reverse = _
    rw [List.dropWhile_cons_of_neg (by simp [b64Char_ne_pad])]
    rfl
  | [b1, b2] =>
    show rstripEqChar
      ([b64Char (b1 / 4), b64Char (b1 % 4 * 16 + b2 / 16), b64Char (b2 % 16 * 4)] ++ ['=']) = _
    unfold rstripEqChar
    rw [List.reverse_append]
    show (('=' :: [b64Char (b1 / 4), b64Char (b1 % 4 * 16 + b2 / 16),
      b64Char (b2 % 16 * 4)].reverse).dropWhile (fun c => c = '=')).reverse = _
    rw [List.dropWhile_cons_of_pos (by simp)]
    show ((b64Char (b2 % 16 * 4) :: [b64Char (b1 % 4 * 16 + b2 / 16), b64Char (b1 / 4)]).dropWhile
      (fun c => c = '=')).reverse = _
    rw [List.dropWhile_cons_of_neg (by simp [b64Char_ne_pad])]
    rfl
  | b1 :: b2 :: b3 :: rest =>
    show rstripEqChar ([b64Char (b1 / 4), b64Char (b1 % 4 * 16 + b2 / 16),
        b64Char (b2 % 16 * 4 + b3 / 64), b64Char (b3 % 64)] ++ base64EncodePadded rest)
      = [b64Char (b1 / 4), b64Char (b1 % 4 * 16 + b2 / 16),
        b64Char (b2 % 16 * 4 + b3 / 64), b64Char (b3 % 64)] ++ base64EncodeNopad rest
    cases rest with
    | nil =>
      show rstripEqChar ([b64Char (b1 / 4), b64Char (b1 % 4 * 16 + b2 / 16),
          b64Char (b2 % 16 * 4 + b3 / 64)] ++ [b64Char (b3 % 64)] ++ []) = _
      rw [List.append_nil, rstripEq_last_ne _ _ (b64Char_ne_pad _)]
      rfl
    | cons b4 r4 =>
      have ih := rstrip_padded_eq_nopad (b4 :: r4)
      have hne : rstripEqChar (base64EncodePadded (b4 :: r4)) ≠ [] := by
        rw [ih]
        exact base64EncodeNopad_ne_nil b4 r4
      rw [rstripEq_append_of_ne_nil _ _ hne, ih]

/-- C9: the derived code challenge equals the base64url-no-padding encoding
of the SHA-256 digest of the verifier's UTF-8 bytes (for every hash
function, hence for SHA-256), and the token-exchange body carries the
`code_verifier` and never a `code_challenge`. -/
theorem c9_pkce_challenge_and_exchange (sha256 : List Nat → List Nat)
    (v cid code ru sc : String) :
    generate_code_challenge sha256 v = base64url_nopad (sha256 (utf8Encode v))
    ∧ ("code_verifier", v) ∈ token_request_body cid code ru v sc
    ∧ (∀ val, ("code_challenge", val) ∉ token_request_body cid code ru v sc) := by
  refine ⟨?_, ?_, ?_⟩
  · unfold generate_code_challenge base64url_nopad
    rw [rstrip_padded_eq_nopad]
  · simp [token_request_body]
  · intro val
    simp [token_request_body]

/-- C9 witness: the theorem at a concrete stand-in digest function and
concrete request fields; the challenge of the digest `[1, 2, 3]` is
`AQID`. -/
theorem c9_pkce_challenge_and_exchange_witness :
    generate_code_challenge (fun _ => [1, 2, 3]) "verifier" = "AQID"
    ∧ ("code_verifier", "verifier") ∈ token_request_body "cid" "abc" REDIRECT_URI "verifier" "sc"
    ∧ ("code_challenge", "AQID") ∉ token_request_body "cid" "abc" REDIRECT_URI "verifier" "sc" := by
  have h := c9_pkce_challenge_and_exchange (fun _ => [1, 2, 3]) "verifier" "cid" "abc"
    REDIRECT_URI "sc"
  exact ⟨h.1.trans rfl, h.2.1, h.2.2 "AQID"⟩

end Aionatgrid
